import Mathlib

/-!
Shallow embedding of `src/useStorage.ts`: a React hook that keeps an
in-memory value (`storedObject`) synchronized with an entry of an external
synchronous key-value `Storage`.

The embedding models one binding instance over a single key, so the store is
represented by the entry for that key.  JavaScript exceptions are modelled by
`Except String`; the pluggable serializer / deserializer pair and the
injected store failures make every fallible step explicit.  The hook's
sub-routines (`initializer`, the `useLayoutEffect` reconciler, `set`,
`remove`) are translated one by one from the source.
-/

namespace UseStorage

/-- A JavaScript value as it can appear as the hook's `StoredObject`:
`null`, booleans, numbers (integral model), strings, arrays and plain
objects.  JS `undefined` is modelled separately as `Option.none` at use
sites. -/
inductive Value where
  | vNull : Value
  | vBool : Bool → Value
  | vNum : Int → Value
  | vStr : String → Value
  | vArr : List Value → Value
  | vObj : List (String × Value) → Value

/-- JavaScript truthiness of a defined value (`null`, `false`, `0`, `""` are
falsy; arrays and objects are always truthy). -/
def Value.truthy : Value → Bool
  | .vNull => false
  | .vBool b => b
  | .vNum n => n != 0
  | .vStr s => s != ""
  | .vArr _ => true
  | .vObj _ => true

/-- Truthiness of a possibly-`undefined` value: `undefined` is falsy. -/
def truthyOpt : Option Value → Bool
  | none => false
  | some v => v.truthy

/-- Whether a value is a JS string, mirroring `typeof newValue !== 'string'`
in the source's `set`. -/
def Value.isString : Value → Bool
  | .vStr _ => true
  | _ => false

mutual

/-- The JS `String(...)` coercion used by `defaultRawOptions.serializer`:
`String(null) = "null"`, booleans and numbers print themselves, strings pass
through, arrays join their coerced elements with commas, and plain objects
coerce to `"[object Object]"`. -/
def jsToString : Value → String
  | .vNull => "null"
  | .vBool b => cond b "true" "false"
  | .vNum n => toString n
  | .vStr s => s
  | .vArr xs => jsArrJoin xs
  | .vObj _ => "[object Object]"

/-- `Array.prototype.toString`: elements coerced and joined with `,`, with
`null` elements coercing to the empty string. -/
def jsArrJoin : List Value → String
  | [] => ""
  | [.vNull] => ""
  | [v] => jsToString v
  | .vNull :: vs => "," ++ jsArrJoin vs
  | v :: vs => jsToString v ++ "," ++ jsArrJoin vs

end

/-- Escape of a single character inside a JSON string literal. -/
def jsonEscapeChar (c : Char) : String :=
  if c = '"' then "\\\""
  else if c = '\\' then "\\\\"
  else if c = '\n' then "\\n"
  else if c = '\r' then "\\r"
  else if c = '\t' then "\\t"
  else String.singleton c

/-- A JSON string literal: the escaped characters between double quotes. -/
def jsonQuote (s : String) : String :=
  "\"" ++ String.join (s.data.map jsonEscapeChar) ++ "\""

mutual

/-- The structured (JSON-equivalent) encode, modelling `JSON.stringify` on
the defined values of the model. -/
def jsonStringify : Value → String
  | .vNull => "null"
  | .vBool b => cond b "true" "false"
  | .vNum n => toString n
  | .vStr s => jsonQuote s
  | .vArr xs => "[" ++ jsonArrBody xs ++ "]"
  | .vObj fs => "\x7b" ++ jsonObjBody fs ++ "\x7d"

/-- Comma-separated encode of an array's elements. -/
def jsonArrBody : List Value → String
  | [] => ""
  | [v] => jsonStringify v
  | v :: vs => jsonStringify v ++ "," ++ jsonArrBody vs

/-- Comma-separated encode of an object's fields. -/
def jsonObjBody : List (String × Value) → String
  | [] => ""
  | [(k, v)] => jsonQuote k ++ ":" ++ jsonStringify v
  | (k, v) :: fs => jsonQuote k ++ ":" ++ jsonStringify v ++ "," ++ jsonObjBody fs

end

mutual

/-- Modelled from the spec: the helper `src/misc/isDeepEqual` imported by
`useStorage.ts` is not part of the given sources; the spec describes it as a
pure structural comparison, recursing through sequences and key-value
mappings with value equality for scalars. -/
def Value.deepEq : Value → Value → Bool
  | .vNull, .vNull => true
  | .vBool a, .vBool b => a == b
  | .vNum a, .vNum b => a == b
  | .vStr a, .vStr b => a == b
  | .vArr a, .vArr b => deepEqList a b
  | .vObj a, .vObj b => deepEqFields a b
  | _, _ => false

/-- Elementwise structural comparison of two sequences. -/
def deepEqList : List Value → List Value → Bool
  | [], [] => true
  | a :: as', b :: bs' => Value.deepEq a b && deepEqList as' bs'
  | _, _ => false

/-- Fieldwise structural comparison of two key-value mappings. -/
def deepEqFields : List (String × Value) → List (String × Value) → Bool
  | [], [] => true
  | (k1, v1) :: as', (k2, v2) :: bs' =>
      k1 == k2 && Value.deepEq v1 v2 && deepEqFields as' bs'
  | _, _ => false

end

/-- Modelled from the spec: deep structural comparison of the two
possibly-`undefined` arguments, as the reconciler applies it. -/
def isDeepEqual : Option Value → Option Value → Bool
  | none, none => true
  | some a, some b => Value.deepEq a b
  | _, _ => false

/-- An exception value (a JS `Error`), identified by its message. -/
abbrev JSError := String

/-- The store restricted to the single key a binding instance uses: `entry`
is what `storage.getItem(key)` reports (`none` models the `null` absence
sentinel). -/
structure StoreState where
  entry : Option String
deriving DecidableEq

/-- Failure injection for the storage medium: whether each primitive throws
(private mode / storage restrictions), deterministically per primitive. -/
structure StoreBehavior where
  getFail : Bool
  setFail : Bool
  removeFail : Bool

/-- The `storage.getItem(key)` call: throws or reports the entry. -/
def getItem (b : StoreBehavior) (s : StoreState) : Except JSError (Option String) :=
  if b.getFail then .error "storage.getItem failed" else .ok s.entry

/-- The `storage.setItem(key, v)` call: throws (leaving the entry as it was)
or overwrites the entry. -/
def setItem (b : StoreBehavior) (s : StoreState) (v : String) :
    Except JSError StoreState :=
  if b.setFail then .error "storage.setItem failed" else .ok { entry := some v }

/-- The `storage.removeItem(key)` call: throws or clears the entry. -/
def removeItem (b : StoreBehavior) (s : StoreState) : Except JSError StoreState :=
  if b.removeFail then .error "storage.removeItem failed" else .ok { entry := none }

/-- The resolved configuration the hook destructures on lines 40-42 of the
source: the mode flag, the serializer / deserializer pair in force, and
whether an `onThrow` callback was supplied.  Fallible user functions return
`Except`. -/
structure Config where
  raw : Bool
  serializer : Option Value → Except JSError String
  deserializer : String → Except JSError (Option Value)
  onThrow : Bool

/-- JS `String(...)` on a possibly-`undefined` argument. -/
def jsToStringOpt : Option Value → String
  | none => "undefined"
  | some v => jsToString v

/-- The configuration resolved in raw mode (`options.raw` truthy): the
`defaultRawOptions` pair overrides any user-supplied one — `serializer` is
the `String` coercion and `deserializer` returns the stored string as-is
(an unchecked cast in the source). -/
def rawConfig (onThrow : Bool) : Config :=
  { raw := true
    serializer := fun v => .ok (jsToStringOpt v)
    deserializer := fun s => .ok (some (.vStr s))
    onThrow := onThrow }

/-- The per-instance state a binding carries between invocations: the store
entry for its key, and the held value (React's `storedObject` state,
`none` = `undefined`). -/
structure HookState where
  store : StoreState
  held : Option Value

/-- What one call of the `initializer` callback produces: its return value,
the store afterwards, the errors forwarded to `onThrow`, and the exception
propagated to the caller (always `none`: the body is wrapped in
`try/catch`). -/
structure InitResult where
  value : Option Value
  store : StoreState
  onThrowCalls : List JSError
  thrown : Option JSError

/-- The `try` block of `initializer` (lines 46-53): read the entry; if
present, deserialize it; otherwise seed the store with the serialized
`initialValue` when that is truthy, and return `initialValue` either way.
Any failure leaves the store as it was (the only write is the final
`setItem`, which mutates nothing when it throws). -/
def initBody (cfg : Config) (b : StoreBehavior) (initialValue : Option Value)
    (s : StoreState) : Except JSError (Option Value × StoreState) :=
  match getItem b s with
  | .error e => .error e
  | .ok (some str) =>
    match cfg.deserializer str with
    | .error e => .error e
    | .ok v => .ok (v, s)
  | .ok none =>
    if truthyOpt initialValue then
      match cfg.serializer initialValue with
      | .error e => .error e
      | .ok ser =>
        match setItem b s ser with
        | .error e => .error e
        | .ok s' => .ok (initialValue, s')
    else
      .ok (initialValue, s)

/-- The `initializer` callback (lines 44-63): run the body; on any thrown
error, forward it to `onThrow` when supplied and fall back to returning
`initialValue`. -/
def initializer (cfg : Config) (b : StoreBehavior) (initialValue : Option Value)
    (s : StoreState) : InitResult :=
  match initBody cfg b initialValue s with
  | .ok (v, s') => { value := v, store := s', onThrowCalls := [], thrown := none }
  | .error e =>
      { value := initialValue, store := s
        onThrowCalls := if cfg.onThrow then [e] else [], thrown := none }

/-- What one run of the reconciling layout effect produces; `replaced`
records whether `setStoredObject` was called, i.e. whether the held value's
identity changed. -/
structure ReconcileResult where
  held : Option Value
  store : StoreState
  onThrowCalls : List JSError
  replaced : Bool

/-- The binding state after a reconciliation. -/
def ReconcileResult.state (r : ReconcileResult) : HookState :=
  { store := r.store, held := r.held }

/-- The `useLayoutEffect` body (lines 70-73): recompute the value through
the `initializer` and replace the held value only when the fresh value is
not deep-equal to it. -/
def reconcile (cfg : Config) (b : StoreBehavior) (initialValue : Option Value)
    (st : HookState) : ReconcileResult :=
  let r := initializer cfg b initialValue st.store
  if isDeepEqual r.value st.held then
    { held := st.held, store := r.store, onThrowCalls := r.onThrowCalls
      replaced := false }
  else
    { held := r.value, store := r.store, onThrowCalls := r.onThrowCalls
      replaced := true }

/-- The argument of the `set` dispatcher: a plain value (possibly
`undefined`) or an updater function of the previous held value (which may
itself throw). -/
inductive SetArg where
  | value : Option Value → SetArg
  | updater : (Option Value → Except JSError (Option Value)) → SetArg

/-- Lines 78-81: apply the updater to the current held value, or take the
plain value as given. -/
def computeNewValue : SetArg → Option Value → Except JSError (Option Value)
  | .updater f, held => f held
  | .value v, _ => .ok v

/-- Lines 85-89: in structured mode run the serializer; in raw mode pass a
string through unchanged and `JSON.stringify` any non-string value. -/
def transformValue (cfg : Config) (nv : Value) : Except JSError String :=
  if !cfg.raw then cfg.serializer (some nv)
  else match nv with
    | .vStr s => .ok s
    | _ => .ok (jsonStringify nv)

/-- The `try` block of `set` (lines 77-92).  A thrown error carries the
store state at the moment it was raised: failures up to and including the
`setItem` leave the entry untouched, while a deserializer failure during
the re-derivation of the held value happens after the write and keeps it. -/
def setBody (cfg : Config) (b : StoreBehavior) (st : HookState) (arg : SetArg) :
    Except (JSError × StoreState) HookState :=
  match computeNewValue arg st.held with
  | .error e => .error (e, st.store)
  | .ok none => .ok st
  | .ok (some nv) =>
    match transformValue cfg nv with
    | .error e => .error (e, st.store)
    | .ok transformed =>
      match setItem b st.store transformed with
      | .error e => .error (e, st.store)
      | .ok store' =>
        if cfg.raw then .ok { store := store', held := some nv }
        else
          match cfg.deserializer transformed with
          | .error e => .error (e, store')
          | .ok w => .ok { store := store', held := w }

/-- What one call of `set` or `remove` produces: the held value and store
afterwards, the errors forwarded to `onThrow`, and the exception propagated
to the caller (always `none`: the bodies are wrapped in `try/catch`). -/
structure OpResult where
  held : Option Value
  store : StoreState
  onThrowCalls : List JSError
  thrown : Option JSError

/-- The binding state after a mutator call. -/
def OpResult.state (r : OpResult) : HookState :=
  { store := r.store, held := r.held }

/-- The `set` dispatcher (lines 75-100): run the body; on any thrown error,
forward it to `onThrow` when supplied and leave the held value at its
pre-call state. -/
def set (cfg : Config) (b : StoreBehavior) (st : HookState) (arg : SetArg) :
    OpResult :=
  match setBody cfg b st arg with
  | .ok st' => { held := st'.held, store := st'.store, onThrowCalls := [], thrown := none }
  | .error (e, s') =>
      { held := st.held, store := s'
        onThrowCalls := if cfg.onThrow then [e] else [], thrown := none }

/-- The `remove` callback (lines 102-111): delete the entry and clear the
held value; on a thrown error, forward it to `onThrow` when supplied and
leave everything as it was. -/
def remove (cfg : Config) (b : StoreBehavior) (st : HookState) : OpResult :=
  match removeItem b st.store with
  | .ok s' => { held := none, store := s', onThrowCalls := [], thrown := none }
  | .error e =>
      { held := st.held, store := st.store
        onThrowCalls := if cfg.onThrow then [e] else [], thrown := none }

/-- JS falsiness of the `key` argument: `none` models passing `null` or
`undefined`, and the empty string is falsy too. -/
def keyFalsy : Option String → Bool
  | none => true
  | some s => s == ""

/-- What entering the binding produces: the exception propagated to the
caller (the key precondition error, if any), the held value computed by the
initial `useState`, the store afterwards, and the errors forwarded to
`onThrow`. -/
structure MountResult where
  thrown : Option JSError
  held : Option Value
  store : StoreState
  onThrowCalls : List JSError

/-- Entering the hook (lines 36-67): a falsy key throws synchronously
before any store access or state computation; otherwise the initial
`useState` computes the held value through the `initializer`. -/
def useStorage (cfg : Config) (b : StoreBehavior) (key : Option String)
    (initialValue : Option Value) (s : StoreState) : MountResult :=
  if keyFalsy key then
    { thrown := some "useStorage key may not be falsy", held := none, store := s
      onThrowCalls := [] }
  else
    let r := initializer cfg b initialValue s
    { thrown := none, held := r.value, store := r.store, onThrowCalls := r.onThrowCalls }

/-! Concrete instances used to exercise the model. -/

/-- A store behavior where every primitive succeeds. -/
def bOk : StoreBehavior := { getFail := false, setFail := false, removeFail := false }

/-- A store behavior whose read throws (a restricted environment). -/
def bGetFail : StoreBehavior := { getFail := true, setFail := false, removeFail := false }

/-- A store behavior where every primitive throws. -/
def bAllFail : StoreBehavior := { getFail := true, setFail := true, removeFail := true }

/-- A concrete structured configuration whose pair round-trips the number 1:
the serializer emits `"one"` and the deserializer recognizes it. -/
def cfgS : Config :=
  { raw := false
    serializer := fun _ => .ok "one"
    deserializer := fun str => .ok (if str = "one" then some (.vNum 1) else none)
    onThrow := true }

/-- A structured configuration whose deserializer always throws. -/
def cfgBadDeser : Config :=
  { raw := false
    serializer := fun _ => .ok "S"
    deserializer := fun _ => .error "boom"
    onThrow := true }

/-- A structured configuration whose serializer always throws. -/
def cfgBadSer : Config :=
  { raw := false
    serializer := fun _ => .error "sfail"
    deserializer := fun str => .ok (some (.vStr str))
    onThrow := true }

/-- A structured configuration with a throwing deserializer and no
`onThrow` callback supplied. -/
def cfgSilent : Config :=
  { raw := false
    serializer := fun _ => .ok "S"
    deserializer := fun _ => .error "boom"
    onThrow := false }

/-! Theorems. -/

mutual

theorem Value.deepEq_refl : ∀ v : Value, Value.deepEq v v = true
  | .vNull => rfl
  | .vBool b => by simp [Value.deepEq]
  | .vNum n => by simp [Value.deepEq]
  | .vStr s => by simp [Value.deepEq]
  | .vArr xs => by simp [Value.deepEq, deepEqList_refl xs]
  | .vObj fs => by simp [Value.deepEq, deepEqFields_refl fs]

theorem deepEqList_refl : ∀ xs : List Value, deepEqList xs xs = true
  | [] => rfl
  | v :: vs => by simp [deepEqList, Value.deepEq_refl v, deepEqList_refl vs]

theorem deepEqFields_refl : ∀ fs : List (String × Value), deepEqFields fs fs = true
  | [] => rfl
  | (k, v) :: fs => by
      simp [deepEqFields, Value.deepEq_refl v, deepEqFields_refl fs]

end

theorem isDeepEqual_refl (a : Option Value) : isDeepEqual a a = true := by
  cases a with
  | none => rfl
  | some v => simpa [isDeepEqual] using Value.deepEq_refl v

/-- The reconciler's resulting store is whatever its embedded initializer
run produced. -/
theorem reconcile_store_eq (cfg : Config) (b : StoreBehavior) (iv : Option Value)
    (st : HookState) :
    (reconcile cfg b iv st).store = (initializer cfg b iv st.store).store := by
  simp only [reconcile]
  split <;> rfl

/-- The reconciler replaces exactly when the fresh value is not deep-equal
to the held one. -/
theorem reconcile_replaced_eq (cfg : Config) (b : StoreBehavior) (iv : Option Value)
    (st : HookState) :
    (reconcile cfg b iv st).replaced
      = !(isDeepEqual (initializer cfg b iv st.store).value st.held) := by
  simp only [reconcile]
  split <;> simp_all

/-- The reconciler's resulting held value: kept when deep-equal, otherwise
the freshly initialized value. -/
theorem reconcile_held_eq (cfg : Config) (b : StoreBehavior) (iv : Option Value)
    (st : HookState) :
    (reconcile cfg b iv st).held
      = if isDeepEqual (initializer cfg b iv st.store).value st.held then st.held
        else (initializer cfg b iv st.store).value := by
  simp only [reconcile]
  split <;> simp_all

/-- In raw mode a non-string value is transformed by the structured
`JSON.stringify` fallback on the mutator path. -/
theorem transformValue_raw_nonstring (onT : Bool) (nv : Value)
    (h : nv.isString = false) :
    transformValue (rawConfig onT) nv = .ok (jsonStringify nv) := by
  cases nv <;> simp_all [transformValue, rawConfig, Value.isString]

/-- A value that is not a JS string is distinct from every `vStr`. -/
theorem nonstring_ne_vStr (v : Value) (s : String) (h : v.isString = false) :
    v ≠ .vStr s := by
  cases v <;> simp_all [Value.isString]

/-- A `vStr` is never deep-equal to a non-string value. -/
theorem deepEq_vStr_nonstring (s : String) (v : Value) (h : v.isString = false) :
    Value.deepEq (.vStr s) v = false := by
  cases v <;> simp_all [Value.deepEq, Value.isString]

/-- C6: for every binding whose store reports a present string, initialization
returns the deserialization of that string and performs no store write,
regardless of whether an `initialValue` was supplied — the existing stored
value takes precedence and is never clobbered by the default. -/
theorem initializer_existing_entry_wins (cfg : Config) (b : StoreBehavior)
    (iv : Option Value) (s : StoreState) (str : String) (w : Option Value)
    (hget : b.getFail = false) (hentry : s.entry = some str)
    (hdeser : cfg.deserializer str = .ok w) :
    (initializer cfg b iv s).value = w ∧ (initializer cfg b iv s).store = s := by
  simp [initializer, initBody, getItem, hget, hentry, hdeser]

/-- C6 witness: with the entry `"one"` present and `initialValue = "baz"`
supplied, initialization yields the deserialized number 1 and leaves the
store exactly as it was. -/
theorem initializer_existing_entry_wins_witness :
    (initializer cfgS bOk (some (.vStr "baz")) { entry := some "one" }).value
        = some (.vNum 1) ∧
    (initializer cfgS bOk (some (.vStr "baz")) { entry := some "one" }).store
        = { entry := some "one" } :=
  initializer_existing_entry_wins cfgS bOk (some (.vStr "baz"))
    { entry := some "one" } "one" (some (.vNum 1)) rfl rfl rfl

/-- C7: if any step of initialization fails (the body throwing on the store
read or write, or in the serializer or deserializer), the initializer
catches the error, forwards it to `onThrow` exactly when the callback was
supplied, propagates nothing to the caller, and returns `initialValue`
(possibly `undefined`) as the result. -/
theorem initializer_failure_falls_back (cfg : Config) (b : StoreBehavior)
    (iv : Option Value) (s : StoreState) (e : JSError)
    (hfail : initBody cfg b iv s = .error e) :
    (initializer cfg b iv s).value = iv ∧
    (initializer cfg b iv s).thrown = none ∧
    (initializer cfg b iv s).onThrowCalls = (if cfg.onThrow then [e] else []) := by
  simp [initializer, hfail]

/-- C7 witness: with a read-throwing store and `initialValue = "bar"`, the
initializer swallows the error, reports it to the supplied `onThrow`, and
falls back to `"bar"`. -/
theorem initializer_failure_falls_back_witness :
    (initializer cfgS bGetFail (some (.vStr "bar")) { entry := none }).value
        = some (.vStr "bar") ∧
    (initializer cfgS bGetFail (some (.vStr "bar")) { entry := none }).thrown = none ∧
    (initializer cfgS bGetFail (some (.vStr "bar")) { entry := none }).onThrowCalls
        = ["storage.getItem failed"] :=
  initializer_failure_falls_back cfgS bGetFail (some (.vStr "bar"))
    { entry := none } "storage.getItem failed" rfl

/-- C8: a falsy key (null, undefined, or the empty string) makes the binding
throw its descriptive error synchronously and unconditionally; the error is
not routed through `onThrow`, and it is raised before any store access or
state computation. -/
theorem useStorage_falsy_key_throws (cfg : Config) (b : StoreBehavior)
    (key : Option String) (iv : Option Value) (s : StoreState)
    (h : keyFalsy key = true) :
    (useStorage cfg b key iv s).thrown = some "useStorage key may not be falsy" ∧
    (useStorage cfg b key iv s).held = none ∧
    (useStorage cfg b key iv s).store = s ∧
    (useStorage cfg b key iv s).onThrowCalls = [] := by
  simp [useStorage, h]

/-- C8 witness: the empty-string key throws at entry even over a store whose
primitives would all fail — none of them is ever reached. -/
theorem useStorage_falsy_key_throws_witness :
    (useStorage cfgS bAllFail (some "") (some .vNull) { entry := some "one" }).thrown
        = some "useStorage key may not be falsy" ∧
    (useStorage cfgS bAllFail (some "") (some .vNull) { entry := some "one" }).held = none ∧
    (useStorage cfgS bAllFail (some "") (some .vNull) { entry := some "one" }).store
        = { entry := some "one" } ∧
    (useStorage cfgS bAllFail (some "") (some .vNull) { entry := some "one" }).onThrowCalls
        = [] :=
  useStorage_falsy_key_throws cfgS bAllFail (some "") (some .vNull)
    { entry := some "one" } rfl

/-- C9: when no `onThrow` callback was supplied, failures in initialize, set
and remove are silently swallowed by the optional-chaining catch blocks:
nothing propagates to the caller and no callback is invoked, for every input
and failure pattern. -/
theorem no_onThrow_swallows_errors (cfg : Config) (b : StoreBehavior)
    (iv : Option Value) (s : StoreState) (st : HookState) (arg : SetArg)
    (h : cfg.onThrow = false) :
    (initializer cfg b iv s).thrown = none ∧
    (initializer cfg b iv s).onThrowCalls = [] ∧
    (set cfg b st arg).thrown = none ∧
    (set cfg b st arg).onThrowCalls = [] ∧
    (remove cfg b st).thrown = none ∧
    (remove cfg b st).onThrowCalls = [] := by
  refine ⟨?_, ?_, ?_, ?_, ?_, ?_⟩
  · cases hI : initBody cfg b iv s <;> simp [initializer, hI, h]
  · cases hI : initBody cfg b iv s <;> simp [initializer, hI, h]
  · cases hS : setBody cfg b st arg <;> simp [set, hS, h]
  · cases hS : setBody cfg b st arg <;> simp [set, hS, h]
  · cases hR : removeItem b st.store <;> simp [remove, hR, h]
  · cases hR : removeItem b st.store <;> simp [remove, hR, h]

/-- C9 witness: a configuration without `onThrow` over an all-throwing
store: initialize, set and remove all fail internally, yet none of them
throws to the caller or invokes any callback. -/
theorem no_onThrow_swallows_errors_witness :
    (initializer cfgSilent bAllFail none { entry := none }).thrown = none ∧
    (initializer cfgSilent bAllFail none { entry := none }).onThrowCalls = [] ∧
    (set cfgSilent bAllFail { store := { entry := none }, held := none }
        (SetArg.value (some .vNull))).thrown = none ∧
    (set cfgSilent bAllFail { store := { entry := none }, held := none }
        (SetArg.value (some .vNull))).onThrowCalls = [] ∧
    (remove cfgSilent bAllFail { store := { entry := none }, held := none }).thrown
        = none ∧
    (remove cfgSilent bAllFail { store := { entry := none }, held := none }).onThrowCalls
        = [] :=
  no_onThrow_swallows_errors cfgSilent bAllFail none { entry := none }
    { store := { entry := none }, held := none } (SetArg.value (some .vNull)) rfl

/-- C2 counterexample: with the store reporting absence and the falsy
`initialValue = false` supplied, the initializer returns `false` but
performs no store write — the seeding `store.set(key, serializer(initialValue))`
asserted by the claim does not happen, because the source gates the write on
the truthiness of `initialValue` (`initialValue && storage.setItem(...)`). -/
theorem initializer_falsy_initialValue_not_written :
    (initializer cfgS bOk (some (.vBool false)) { entry := none }).value
        = some (.vBool false) ∧
    (initializer cfgS bOk (some (.vBool false)) { entry := none }).store.entry
        = none := by
  constructor <;> rfl

/-- C2 amended: when the store reports absence, the initializer returns the
supplied `initialValue` in every case, but it writes
`store.set(key, serializer(initialValue))` only when `initialValue` is
truthy; a falsy `initialValue` (such as 0, false, the empty string, or an
omitted one) is returned without any store write. -/
theorem initializer_absent_seeds_truthy_only (cfg : Config) (b : StoreBehavior)
    (iv : Option Value) (s : StoreState)
    (hget : b.getFail = false) (hentry : s.entry = none) :
    (truthyOpt iv = false →
      (initializer cfg b iv s).value = iv ∧ (initializer cfg b iv s).store = s) ∧
    (∀ str, truthyOpt iv = true → cfg.serializer iv = .ok str → b.setFail = false →
      (initializer cfg b iv s).value = iv ∧
      (initializer cfg b iv s).store.entry = some str) := by
  constructor
  · intro hf
    simp [initializer, initBody, getItem, hget, hentry, hf]
  · intro str ht hser hset
    simp [initializer, initBody, getItem, setItem, hget, hentry, ht, hser, hset]

/-- C2 amended witness: a truthy `initialValue` (the number 1) is seeded to
the absent entry through the serializer and returned. -/
theorem initializer_absent_seeds_truthy_only_witness :
    (initializer cfgS bOk (some (.vNum 1)) { entry := none }).value
        = some (.vNum 1) ∧
    (initializer cfgS bOk (some (.vNum 1)) { entry := none }).store.entry
        = some "one" :=
  (initializer_absent_seeds_truthy_only cfgS bOk (some (.vNum 1))
    { entry := none } rfl rfl).2 "one" rfl rfl rfl

/-- C3 counterexample: in raw mode the initializer's seeding path serializes
with the `String` coercion, not the structured encode: seeding the object
`\x7bfizz: "bang"\x7d` writes `"[object Object]"` to the store, while the
structured (JSON-equivalent) encode of that object is `'\x7b"fizz":"bang"\x7d'`. -/
theorem raw_seed_uses_string_coercion :
    (initializer (rawConfig true) bOk (some (.vObj [("fizz", .vStr "bang")]))
        { entry := none }).store.entry = some "[object Object]" ∧
    jsonStringify (.vObj [("fizz", .vStr "bang")]) = "\x7b\"fizz\":\"bang\"\x7d" ∧
    ("[object Object]" : String) ≠ "\x7b\"fizz\":\"bang\"\x7d" := by
  refine ⟨rfl, rfl, by decide⟩

/-- C3 amended: in raw mode the mutator's serialization of a non-string
value produces the structured (JSON-equivalent) encode, but the
initializer's seeding of a supplied `initialValue` serializes with the
`String` coercion instead, so a seeded non-string value is stored as its
string coercion (for a plain object, `"[object Object]"`), not as its
structured encode. -/
theorem raw_serialization_two_paths (onT : Bool) (b : StoreBehavior)
    (st : HookState) (nv : Value) (iv : Option Value) (s : StoreState)
    (hstr : nv.isString = false) (hset : b.setFail = false)
    (hget : b.getFail = false) (ht : truthyOpt iv = true) (hentry : s.entry = none) :
    (set (rawConfig onT) b st (SetArg.value (some nv))).store.entry
        = some (jsonStringify nv) ∧
    (initializer (rawConfig onT) b iv s).store.entry = some (jsToStringOpt iv) := by
  constructor
  · simp only [set, setBody, computeNewValue, transformValue_raw_nonstring onT nv hstr,
          setItem, hset]
    simp [rawConfig]
  · simp [initializer, initBody, getItem, setItem, hget, hentry, ht, hset, rawConfig]

/-- C3 amended witness: setting the object `\x7bfizz: "bang"\x7d` in raw mode
writes its structured encode, while seeding the same object as
`initialValue` writes its `String` coercion. -/
theorem raw_serialization_two_paths_witness :
    (set (rawConfig true) bOk { store := { entry := none }, held := none }
        (SetArg.value (some (.vObj [("fizz", .vStr "bang")])))).store.entry
        = some "\x7b\"fizz\":\"bang\"\x7d" ∧
    (initializer (rawConfig true) bOk (some (.vObj [("fizz", .vStr "bang")]))
        { entry := none }).store.entry = some "[object Object]" :=
  raw_serialization_two_paths true bOk { store := { entry := none }, held := none }
    (.vObj [("fizz", .vStr "bang")]) (some (.vObj [("fizz", .vStr "bang")]))
    { entry := none } rfl rfl rfl rfl rfl

/-- C4: two consecutive reconciliations with no intervening mutation of the
store entry (the first run leaves the store as it found it) never replace
the held value the second time: the freshly initialized value is deep-equal
to the currently held one, so the held reference — and the identity
observers see — is kept. -/
theorem reconcile_twice_keeps_identity (cfg : Config) (b : StoreBehavior)
    (iv : Option Value) (st : HookState)
    (h : (reconcile cfg b iv st).store = st.store) :
    (reconcile cfg b iv (reconcile cfg b iv st).state).replaced = false := by
  rw [reconcile_replaced_eq]
  simp only [ReconcileResult.state]
  rw [h, reconcile_held_eq]
  by_cases hc : isDeepEqual (initializer cfg b iv st.store).value st.held = true
  · simp [hc]
  · simp only [Bool.not_eq_true] at hc
    simp [hc, isDeepEqual_refl]

/-- C4 witness: with the entry `"x"` present and the string `"x"` held in
raw mode, a first reconciliation leaves the store untouched and a second
one does not replace the held value. -/
theorem reconcile_twice_keeps_identity_witness :
    (reconcile (rawConfig false) bOk none
      (reconcile (rawConfig false) bOk none
        { store := { entry := some "x" }, held := some (.vStr "x") }).state).replaced
      = false :=
  reconcile_twice_keeps_identity (rawConfig false) bOk none
    { store := { entry := some "x" }, held := some (.vStr "x") } rfl

/-- C5: in structured mode, when serialization, the store write and the
re-derivation succeed, `set(v)` holds `deserializer(serializer(v))` — the
value re-derived from the serialized form, not `v` itself — and whenever
that round-trip reproduces `v`, the held value after `set(v)` and a
subsequent reconciliation is `v`. -/
theorem set_structured_rederives (cfg : Config) (b : StoreBehavior)
    (st : HookState) (v : Value) (tr : String) (w : Option Value) (iv : Option Value)
    (hraw : cfg.raw = false)
    (hser : cfg.serializer (some v) = .ok tr)
    (hset : b.setFail = false)
    (hdeser : cfg.deserializer tr = .ok w)
    (hget : b.getFail = false) :
    (set cfg b st (SetArg.value (some v))).held = w ∧
    (w = some v →
      (reconcile cfg b iv (set cfg b st (SetArg.value (some v))).state).held
        = some v) := by
  have hbody : setBody cfg b st (SetArg.value (some v))
      = .ok { store := { entry := some tr }, held := w } := by
    simp [setBody, computeNewValue, transformValue, hraw, hser, setItem, hset, hdeser]
  have hstate : (set cfg b st (SetArg.value (some v))).state
      = { store := { entry := some tr }, held := w } := by
    simp [set, hbody, OpResult.state]
  constructor
  · simp [set, hbody]
  · intro hw
    rw [reconcile_held_eq, hstate]
    simp [initializer, initBody, getItem, hget, hdeser, hw, isDeepEqual_refl]

/-- C5 witness: with a pair that round-trips the number 1 through the
string `"one"`, `set(1)` holds the re-derived 1, and so does a subsequent
reconciliation. -/
theorem set_structured_rederives_witness :
    (set cfgS bOk { store := { entry := none }, held := none }
        (SetArg.value (some (.vNum 1)))).held = some (.vNum 1) ∧
    (some (Value.vNum 1) = some (Value.vNum 1) →
      (reconcile cfgS bOk none
        (set cfgS bOk { store := { entry := none }, held := none }
          (SetArg.value (some (.vNum 1)))).state).held = some (.vNum 1)) :=
  set_structured_rederives cfgS bOk { store := { entry := none }, held := none }
    (.vNum 1) "one" (some (.vNum 1)) none rfl rfl rfl rfl rfl

/-- C10: in raw mode a successful `set(v)` with a non-string defined value
`v` writes the structured encode of `v` to the store but holds `v` itself,
so immediately after the call the held value differs from what a fresh read
of the store (the initializer, whose raw deserializer is the identity)
would produce; the next reconciliation then replaces it with the stored
string. -/
theorem set_raw_nonstring_diverges (onT : Bool) (b : StoreBehavior)
    (st : HookState) (v : Value) (iv : Option Value)
    (hstr : v.isString = false) (hset : b.setFail = false)
    (hget : b.getFail = false) :
    (set (rawConfig onT) b st (SetArg.value (some v))).store.entry
        = some (jsonStringify v) ∧
    (set (rawConfig onT) b st (SetArg.value (some v))).held = some v ∧
    (initializer (rawConfig onT) b iv
        (set (rawConfig onT) b st (SetArg.value (some v))).state.store).value
        = some (.vStr (jsonStringify v)) ∧
    (set (rawConfig onT) b st (SetArg.value (some v))).held
      ≠ (initializer (rawConfig onT) b iv
          (set (rawConfig onT) b st (SetArg.value (some v))).state.store).value ∧
    (reconcile (rawConfig onT) b iv
        (set (rawConfig onT) b st (SetArg.value (some v))).state).held
        = some (.vStr (jsonStringify v)) := by
  have hbody : setBody (rawConfig onT) b st (SetArg.value (some v))
      = .ok { store := { entry := some (jsonStringify v) }, held := some v } := by
    simp only [setBody, computeNewValue, transformValue_raw_nonstring onT v hstr,
      setItem, hset]
    simp [rawConfig]
  have hstate : (set (rawConfig onT) b st (SetArg.value (some v))).state
      = { store := { entry := some (jsonStringify v) }, held := some v } := by
    simp [set, hbody, OpResult.state]
  have hinit : (initializer (rawConfig onT) b iv
      (set (rawConfig onT) b st (SetArg.value (some v))).state.store).value
      = some (.vStr (jsonStringify v)) := by
    rw [hstate]
    simp [initializer, initBody, getItem, hget, rawConfig]
  refine ⟨by simp [set, hbody], by simp [set, hbody], hinit, ?_, ?_⟩
  · rw [hinit]
    simp only [set, hbody]
    intro hcontra
    exact nonstring_ne_vStr v (jsonStringify v) hstr (Option.some.inj hcontra)
  · rw [reconcile_held_eq, hstate]
    have hfresh : (initializer (rawConfig onT) b iv { entry := some (jsonStringify v) }).value
        = some (.vStr (jsonStringify v)) := by
      simp [initializer, initBody, getItem, hget, rawConfig]
    rw [hfresh]
    simp [isDeepEqual, deepEq_vStr_nonstring (jsonStringify v) v hstr]

/-- C10 witness: in raw mode `set(\x7bfizz: "bang"\x7d)` stores the encode
`'\x7b"fizz":"bang"\x7d'` while holding the object; a fresh read yields the
string instead, and reconciliation replaces the held object by it. -/
theorem set_raw_nonstring_diverges_witness :
    (set (rawConfig false) bOk { store := { entry := none }, held := none }
        (SetArg.value (some (.vObj [("fizz", .vStr "bang")])))).store.entry
        = some "\x7b\"fizz\":\"bang\"\x7d" ∧
    (set (rawConfig false) bOk { store := { entry := none }, held := none }
        (SetArg.value (some (.vObj [("fizz", .vStr "bang")])))).held
        = some (.vObj [("fizz", .vStr "bang")]) ∧
    (initializer (rawConfig false) bOk none
        (set (rawConfig false) bOk { store := { entry := none }, held := none }
          (SetArg.value (some (.vObj [("fizz", .vStr "bang")])))).state.store).value
        = some (.vStr "\x7b\"fizz\":\"bang\"\x7d") ∧
    (set (rawConfig false) bOk { store := { entry := none }, held := none }
        (SetArg.value (some (.vObj [("fizz", .vStr "bang")])))).held
      ≠ (initializer (rawConfig false) bOk none
          (set (rawConfig false) bOk { store := { entry := none }, held := none }
            (SetArg.value (some (.vObj [("fizz", .vStr "bang")])))).state.store).value ∧
    (reconcile (rawConfig false) bOk none
        (set (rawConfig false) bOk { store := { entry := none }, held := none }
          (SetArg.value (some (.vObj [("fizz", .vStr "bang")])))).state).held
        = some (.vStr "\x7b\"fizz\":\"bang\"\x7d") :=
  set_raw_nonstring_diverges false bOk { store := { entry := none }, held := none }
    (.vObj [("fizz", .vStr "bang")]) none rfl rfl rfl

/-- C1 counterexample: over an empty store, `set(null)` under a structured
configuration whose deserializer throws performs the store write and only
then fails re-deriving the held value; the error is caught and forwarded
and the held value is untouched, but the store entry has changed from
absent to the newly written string — the call is not free of other
effects, so the claim as stated fails. -/
theorem set_rederivation_failure_keeps_write :
    (set cfgBadDeser bOk { store := { entry := none }, held := none }
        (SetArg.value (some .vNull))).onThrowCalls = ["boom"] ∧
    (set cfgBadDeser bOk { store := { entry := none }, held := none }
        (SetArg.value (some .vNull))).held = none ∧
    (set cfgBadDeser bOk { store := { entry := none }, held := none }
        (SetArg.value (some .vNull))).store.entry = some "S" ∧
    some "S" ≠ (none : Option String) := by
  refine ⟨rfl, rfl, rfl, by simp⟩

/-- C1 amended: if any step of `set` fails — the updater, the serializer,
the store write, or the re-derivation of the held value throwing — the
error is caught and forwarded to `onThrow` when supplied, nothing
propagates to the caller, and the held value is unchanged; the store entry
is unchanged as well, unless the failure happened in the structured
re-derivation, which runs only after a successful store write, whose newly
written entry then remains. -/
theorem set_failure_contained (cfg : Config) (b : StoreBehavior)
    (st : HookState) (arg : SetArg) (e : JSError) (s' : StoreState)
    (hfail : setBody cfg b st arg = .error (e, s')) :
    (set cfg b st arg).thrown = none ∧
    (set cfg b st arg).held = st.held ∧
    (set cfg b st arg).onThrowCalls = (if cfg.onThrow then [e] else []) ∧
    (set cfg b st arg).store = s' ∧
    (s' = st.store ∨
      (cfg.raw = false ∧ ∃ nv tr,
        computeNewValue arg st.held = .ok (some nv) ∧
        transformValue cfg nv = .ok tr ∧
        setItem b st.store tr = .ok s' ∧
        cfg.deserializer tr = .error e)) := by
  refine ⟨by simp [set, hfail], by simp [set, hfail], by simp [set, hfail],
          by simp [set, hfail], ?_⟩
  unfold setBody at hfail
  cases hc : computeNewValue arg st.held with
  | error e1 =>
      simp only [hc] at hfail
      exact Or.inl (congrArg Prod.snd (Except.error.inj hfail)).symm
  | ok nvOpt =>
      cases nvOpt with
      | none => simp [hc] at hfail
      | some nv =>
          simp only [hc] at hfail
          cases htr : transformValue cfg nv with
          | error e2 =>
              simp only [htr] at hfail
              exact Or.inl (congrArg Prod.snd (Except.error.inj hfail)).symm
          | ok tr =>
              simp only [htr] at hfail
              cases hsi : setItem b st.store tr with
              | error e3 =>
                  simp only [hsi] at hfail
                  exact Or.inl (congrArg Prod.snd (Except.error.inj hfail)).symm
              | ok store1 =>
                  simp only [hsi] at hfail
                  cases hr : cfg.raw with
                  | true => simp [hr] at hfail
                  | false =>
                      simp only [hr] at hfail
                      cases hd : cfg.deserializer tr with
                      | error e4 =>
                          simp only [hd] at hfail
                          have hpair := Except.error.inj hfail
                          have he : e4 = e := congrArg Prod.fst hpair
                          have hs1 : store1 = s' := congrArg Prod.snd hpair
                          exact Or.inr ⟨rfl, nv, tr, rfl, htr, hs1 ▸ hsi, he ▸ hd⟩
                      | ok w => simp [hd] at hfail

/-- C1 amended witness: a serializer failure before any write leaves both
the held value and the store entry at their pre-call state, with the error
forwarded to the supplied `onThrow`. -/
theorem set_failure_contained_witness :
    (set cfgBadSer bOk { store := { entry := none }, held := none }
        (SetArg.value (some .vNull))).thrown = none ∧
    (set cfgBadSer bOk { store := { entry := none }, held := none }
        (SetArg.value (some .vNull))).held = none ∧
    (set cfgBadSer bOk { store := { entry := none }, held := none }
        (SetArg.value (some .vNull))).onThrowCalls = ["sfail"] ∧
    (set cfgBadSer bOk { store := { entry := none }, held := none }
        (SetArg.value (some .vNull))).store = { entry := none } ∧
    (({ entry := none } : StoreState) = { entry := none } ∨
      (cfgBadSer.raw = false ∧ ∃ nv tr,
        computeNewValue (SetArg.value (some .vNull)) none = .ok (some nv) ∧
        transformValue cfgBadSer nv = .ok tr ∧
        setItem bOk { entry := none } tr = .ok { entry := none } ∧
        cfgBadSer.deserializer tr = .error "sfail")) :=
  set_failure_contained cfgBadSer bOk { store := { entry := none }, held := none }
    (SetArg.value (some .vNull)) "sfail" { entry := none } rfl

end UseStorage
